import Mathlib

/-!
Verification development for the minimal-audio-engine concurrency core.

The definitions below are shallow embeddings of the C++ sources:
  * `MessageQueue` embeds the template class in
    src/framework/include/messagequeue.h,
  * the audio-engine types and handlers embed
    src/audioengine/src/audioengine.cpp together with its header,
  * the engine-lifecycle startup handshake embeds IEngine in
    src/framework/include/engine.h,
  * `Track` and its binding operations embed
    src/trackmanager/src/track.cpp,
  * the MIDI decode path embeds midi_callback in
    src/midiengine/src/midiengine.cpp and the fixed name table in
    miditypes.h.

C++ machine integers (`unsigned int`, `unsigned char`, `sf_count_t`) are
modelled as `Nat`: every value appearing in the modelled code paths is
non-negative and far below any overflow boundary, and no arithmetic in the
modelled paths can wrap.  Audio samples (`float`) are modelled as `ℚ`: the
modelled code only ever copies sample values or assigns the constant `0.0f`,
both of which are exact in IEEE 754, so no rounding behaviour is lost.
C++ exceptions are modelled with `Except String`; a thrown exception carries
the source's message and, as in C++, leaves the receiver object unmodified
because the throw happens before any field is assigned.
-/

namespace MinimalAudioEngine

/-- Embedding of the fields of `MessageQueue<T>` (messagequeue.h): the
`std::queue<T> m_queue` contents front-first, and the `m_stopped` flag.
The mutex and condition variable serialise the operations; under that
serialisation each operation is the pure state transformer given below. -/
structure MessageQueue (T : Type) where
  items : List T
  stopped : Bool
deriving Repr, DecidableEq

namespace MessageQueue

/-- `MessageQueue::push`: appends the message at the tail and notifies one
waiting consumer.  Never fails, and does not consult `m_stopped`. -/
def push {T : Type} (q : MessageQueue T) (message : T) : MessageQueue T :=
  { q with items := q.items ++ [message] }

/-- A sequence of pushes, in order. -/
def pushAll {T : Type} (q : MessageQueue T) (messages : List T) : MessageQueue T :=
  messages.foldl push q

/-- `MessageQueue::pop`: waits on the condition variable with predicate
`m_stopped || !m_queue.empty()`; a call whose predicate never becomes true
blocks forever, modelled by the outer `none`.  Once the predicate holds:
if stopped and empty it returns `nullopt`, otherwise it removes and returns
the front element. -/
def pop {T : Type} (q : MessageQueue T) : Option (Option T × MessageQueue T) :=
  if q.stopped || !q.items.isEmpty then
    if q.stopped && q.items.isEmpty then
      some (none, q)
    else
      match q.items with
      | [] => some (none, q)
      | message :: rest => some (some message, { q with items := rest })
  else
    none

/-- `MessageQueue::try_pop`: under the lock, returns the front element if the
queue is non-empty and `nullopt` otherwise.  It never waits, and never reads
`m_stopped`. -/
def try_pop {T : Type} (q : MessageQueue T) : Option T × MessageQueue T :=
  match q.items with
  | [] => (none, q)
  | message :: rest => (some message, { q with items := rest })

/-- `MessageQueue::stop`: sets the stopped flag and wakes all waiters. -/
def stop {T : Type} (q : MessageQueue T) : MessageQueue T :=
  { q with stopped := true }

end MessageQueue

/-- Which consumer operation a pop in a pop sequence uses: the blocking
`pop()` or the non-blocking `try_pop()`. -/
inductive PopKind
  | blocking
  | nonblocking
deriving Repr, DecidableEq

/-- Run a sequence of pops (each either `pop` or `try_pop`) against a queue,
with no interleaved pushes, collecting the returned values in order.  The
overall result is `none` if some blocking `pop` in the sequence would block
forever. -/
def runPops {T : Type} : MessageQueue T → List PopKind → Option (List (Option T) × MessageQueue T)
  | q, [] => some ([], q)
  | q, PopKind.blocking :: ks =>
    match q.pop with
    | none => none
    | some (r, q1) =>
      match runPops q1 ks with
      | none => none
      | some (rs, q2) => some (r :: rs, q2)
  | q, PopKind.nonblocking :: ks =>
    match q.try_pop with
    | (r, q1) =>
      match runPops q1 ks with
      | none => none
      | some (rs, q2) => some (r :: rs, q2)

theorem pushAll_def {T : Type} (q : MessageQueue T) (messages : List T) :
    MessageQueue.pushAll q messages = { q with items := q.items ++ messages } := by
  induction messages generalizing q with
  | nil => simp [MessageQueue.pushAll]
  | cons x rest ih =>
    simp only [MessageQueue.pushAll, List.foldl_cons] at *
    rw [show MessageQueue.push q x = { q with items := q.items ++ [x] } from rfl]
    rw [ih]
    simp

theorem pop_nonempty {T : Type} (x : T) (rest : List T) (s : Bool) :
    MessageQueue.pop { items := x :: rest, stopped := s } =
      some (some x, { items := rest, stopped := s }) := by
  cases s <;> rfl

theorem runPops_drain {T : Type} (ks : List PopKind) :
    ∀ (items : List T) (s : Bool), ks.length = items.length →
      runPops { items := items, stopped := s } ks =
        some (items.map some, { items := [], stopped := s }) := by
  induction ks with
  | nil =>
    intro items s h
    cases items with
    | nil => rfl
    | cons x rest => simp at h
  | cons k ks ih =>
    intro items s h
    cases items with
    | nil => simp at h
    | cons x rest =>
      have hlen : ks.length = rest.length := by simpa using h
      cases k with
      | blocking =>
        simp only [runPops, pop_nonempty, ih rest s hlen, List.map_cons]
      | nonblocking =>
        simp only [runPops, MessageQueue.try_pop, ih rest s hlen, List.map_cons]

/-- Claim C2: for every sequence of pushes P1..Pn into a MessageQueue followed
by pops (pop or try_pop) with no interleaved pushes, the items returned by
the pops are exactly P1..Pn in push order. -/
theorem claim_C2_queue_fifo {T : Type} (pushes : List T) (ks : List PopKind) (s : Bool)
    (h : ks.length = pushes.length) :
    runPops (MessageQueue.pushAll { items := [], stopped := s } pushes) ks =
      some (pushes.map some, { items := [], stopped := s }) := by
  rw [pushAll_def]
  simpa using runPops_drain ks pushes s h

theorem claim_C2_queue_fifo_witness :
    ([PopKind.blocking, PopKind.nonblocking, PopKind.blocking].length =
      ([10, 20, 30] : List Nat).length) ∧
    runPops (MessageQueue.pushAll { items := [], stopped := false } ([10, 20, 30] : List Nat))
        [PopKind.blocking, PopKind.nonblocking, PopKind.blocking] =
      some ([some 10, some 20, some 30], { items := [], stopped := false }) :=
  ⟨by decide,
   claim_C2_queue_fifo [10, 20, 30] [PopKind.blocking, PopKind.nonblocking, PopKind.blocking]
     false (by decide)⟩

/-- Claim C3: after `stop()` has been called, `pop()` on an empty queue
completes with no value (instead of blocking), while `pop()` on a non-empty
queue still returns the front item; and `try_pop()` returns immediately in
every state, front item if non-empty and no value if empty, independent of
the stopped flag. -/
theorem claim_C3_queue_shutdown {T : Type} (q : MessageQueue T) :
    ((MessageQueue.stop q).items = [] →
      (MessageQueue.stop q).pop = some (none, MessageQueue.stop q)) ∧
    (∀ (x : T) (rest : List T), (MessageQueue.stop q).items = x :: rest →
      (MessageQueue.stop q).pop =
        some (some x, { MessageQueue.stop q with items := rest })) ∧
    (∀ p : MessageQueue T,
      (p.try_pop).1 = p.items.head? ∧
      (p.try_pop).2.items = p.items.tail ∧
      (p.try_pop).2.stopped = p.stopped) := by
  refine ⟨?_, ?_, ?_⟩
  · intro hempty
    simp [MessageQueue.pop, MessageQueue.stop] at *
    simp [hempty]
  · intro x rest hcons
    have : q.items = x :: rest := hcons
    simp [MessageQueue.pop, MessageQueue.stop, this]
  · intro p
    cases hp : p.items with
    | nil => simp [MessageQueue.try_pop, hp]
    | cons y ys => simp [MessageQueue.try_pop, hp]

theorem claim_C3_queue_shutdown_witness :
    (MessageQueue.stop { items := ([] : List Nat), stopped := false }).pop =
      some (none, MessageQueue.stop { items := [], stopped := false }) ∧
    (MessageQueue.stop { items := ([7, 8] : List Nat), stopped := false }).pop =
      some (some 7, { MessageQueue.stop { items := ([7, 8] : List Nat), stopped := false }
                        with items := [8] }) ∧
    (({ items := ([5] : List Nat), stopped := true } : MessageQueue Nat).try_pop).1 = some 5 :=
  ⟨(claim_C3_queue_shutdown { items := [], stopped := false }).1 rfl,
   (claim_C3_queue_shutdown { items := [7, 8], stopped := false }).2.1 7 [8] rfl,
   by
     have h := (claim_C3_queue_shutdown ({ items := [5], stopped := true } : MessageQueue Nat)).2.2
       { items := [5], stopped := true }
     simpa using h.1⟩

/-- `eAudioEngineState` (audioengine.h). -/
inductive EAudioEngineState
  | Idle
  | Stopped
  | Running
  | Start
deriving Repr, DecidableEq

/-- `eAudioEngineCommand` (audioengine.h). -/
inductive EAudioEngineCommand
  | Play
  | Stop
  | SetDevice
  | SetParams
deriving Repr, DecidableEq

/-- `SetDevicePayload` (audioengine.h): the device id carried by a SetDevice
command. -/
structure SetDevicePayload where
  device_id : Nat
deriving Repr, DecidableEq

/-- `SetStreamParamsPayload` (audioengine.h). -/
structure SetStreamParamsPayload where
  channels : Nat
  sample_rate : Nat
  buffer_frames : Nat
deriving Repr, DecidableEq

/-- The `std::variant<std::monostate, SetDevicePayload, SetStreamParamsPayload>`
payload of an `AudioMessage`. -/
inductive AudioPayload
  | monostate
  | deviceArgs (p : SetDevicePayload)
  | streamParamsArgs (p : SetStreamParamsPayload)
deriving Repr, DecidableEq

/-- `AudioMessage` (audioengine.h): a command together with its payload. -/
structure AudioMessage where
  command : EAudioEngineCommand
  payload : AudioPayload
deriving Repr, DecidableEq

/-- The message built by `AudioEngine::play()`. -/
def playMessage : AudioMessage :=
  { command := EAudioEngineCommand.Play, payload := AudioPayload.monostate }

/-- The message built by `AudioEngine::stop()`; `Track::stop` enqueues exactly
this message through `AudioEngine::instance().stop()`. -/
def stopMessage : AudioMessage :=
  { command := EAudioEngineCommand.Stop, payload := AudioPayload.monostate }

/-- The engine-held fields of `AudioEngine` (audioengine.h) relevant to its
worker loop, together with the observable state of the underlying RtAudio
stream (`p_rtaudio` non-null, `isStreamOpen()`, `isStreamRunning()`). -/
structure AudioEngineModel where
  state : EAudioEngineState
  device_id : Nat
  channels : Nat
  sample_rate : Nat
  buffer_frames : Nat
  tracks_playing : Nat
  total_frames_processed : Nat
  rtaudioPresent : Bool
  streamOpen : Bool
  streamRunning : Bool
deriving Repr, DecidableEq

/-- The state established by the `AudioEngine` constructor: Idle, 512 buffer
frames, 44100 Hz, 2 channels, device id 0, zero statistics; `p_rtaudio` is
created (the constructor throws if creation fails) and no stream is open. -/
def audioEngineInit : AudioEngineModel :=
  { state := EAudioEngineState.Idle
    device_id := 0
    channels := 2
    sample_rate := 44100
    buffer_frames := 512
    tracks_playing := 0
    total_frames_processed := 0
    rtaudioPresent := true
    streamOpen := false
    streamRunning := false }

/-- The body of the `while (auto message = try_pop_message())` loop in
`AudioEngine::handle_messages` for a single message: the switch over the
command, operating on the locally loaded state and storing it back.
`std::get` on the wrong variant alternative throws `std::bad_variant_access`,
modelled by the error branch. -/
def handleOneAudioMessage (e : AudioEngineModel) (message : AudioMessage) :
    Except String AudioEngineModel :=
  match message.command with
  | EAudioEngineCommand.Play =>
    if e.state = EAudioEngineState.Idle ∨ e.state = EAudioEngineState.Stopped then
      Except.ok { e with state := EAudioEngineState.Start }
    else
      Except.ok e
  | EAudioEngineCommand.Stop =>
    if e.state = EAudioEngineState.Running ∨ e.state = EAudioEngineState.Start then
      Except.ok { e with state := EAudioEngineState.Stopped }
    else
      Except.ok e
  | EAudioEngineCommand.SetDevice =>
    match message.payload with
    | AudioPayload.deviceArgs p => Except.ok { e with device_id := p.device_id }
    | _ => Except.error "bad_variant_access"
  | EAudioEngineCommand.SetParams =>
    match message.payload with
    | AudioPayload.streamParamsArgs p =>
      Except.ok { e with
        channels := p.channels
        sample_rate := p.sample_rate
        buffer_frames := p.buffer_frames }
    | _ => Except.error "bad_variant_access"

/-- `AudioEngine::handle_messages`: drains the currently queued messages in
FIFO order, applying the switch body to each. -/
def handleAudioMessages (e : AudioEngineModel) :
    List AudioMessage → Except String AudioEngineModel
  | [] => Except.ok e
  | m :: rest =>
    match handleOneAudioMessage e m with
    | Except.ok e1 => handleAudioMessages e1 rest
    | Except.error msg => Except.error msg

/-- The engine state after handling one message, as observable through
`get_state()`; an uncaught exception leaves the stored state unchanged. -/
def audioStateAfter (e : AudioEngineModel) (message : AudioMessage) : EAudioEngineState :=
  match handleOneAudioMessage e message with
  | Except.ok e1 => e1.state
  | Except.error _ => e.state

/-- Outcomes of the RtAudio transport calls made by `update_state_start`:
whether the initial stop/close cleanup throws, whether `openStream` throws,
the buffer-frame count `openStream` writes back, and whether `startStream`
throws. -/
structure AudioTransportOutcome where
  closeThrows : Bool
  openThrows : Bool
  negotiatedBufferFrames : Nat
  startThrows : Bool
deriving Repr, DecidableEq

/-- `AudioEngine::update_state_stopped`: returns immediately when `p_rtaudio`
is null or no stream is open; otherwise stops and closes the stream (stream
exceptions are caught and only logged), zeroes the tracks-playing statistic
and stores Idle. -/
def updateStateStopped (e : AudioEngineModel) : AudioEngineModel :=
  if !e.rtaudioPresent || !e.streamOpen then
    e
  else
    { e with
      streamRunning := false
      streamOpen := false
      tracks_playing := 0
      state := EAudioEngineState.Idle }

/-- `AudioEngine::update_state_start`: closes any previous stream (a throw
there logs and reverts to Idle), then opens and starts a stream on the
current device and parameters, storing the negotiated buffer-frame count;
a throw in open or start logs and reverts to Idle, success stores Running. -/
def updateStateStart (e : AudioEngineModel) (o : AudioTransportOutcome) : AudioEngineModel :=
  if !e.rtaudioPresent then
    e
  else if o.closeThrows then
    { e with state := EAudioEngineState.Idle }
  else
    let e1 := { e with streamRunning := false, streamOpen := false }
    if o.openThrows then
      { e1 with state := EAudioEngineState.Idle }
    else
      let e2 := { e1 with streamOpen := true, buffer_frames := o.negotiatedBufferFrames }
      if o.startThrows then
        { e2 with state := EAudioEngineState.Idle }
      else
        { e2 with streamRunning := true, state := EAudioEngineState.Running }

/-- `AudioEngine::update_state_running`: polls the stream; if it is no longer
running, stores Stopped. -/
def updateStateRunning (e : AudioEngineModel) : AudioEngineModel :=
  if !e.streamRunning then
    { e with state := EAudioEngineState.Stopped }
  else
    e

/-- `AudioEngine::update_state`: one tick of the worker state machine,
dispatching on the current state. -/
def updateState (e : AudioEngineModel) (o : AudioTransportOutcome) : AudioEngineModel :=
  match e.state with
  | EAudioEngineState.Idle => e
  | EAudioEngineState.Stopped => updateStateStopped e
  | EAudioEngineState.Start => updateStateStart e o
  | EAudioEngineState.Running => updateStateRunning e

/-- Claim C4: in the message handler, a Play command changes the state to
Start exactly when the current state is Idle or Stopped, and a Stop command
changes the state to Stopped exactly when the current state is Running or
Start; in every other state the command leaves the state unchanged. -/
theorem claim_C4_play_stop_transitions (e : AudioEngineModel) :
    ((audioStateAfter e playMessage = EAudioEngineState.Start ∧
        audioStateAfter e playMessage ≠ e.state) ↔
      (e.state = EAudioEngineState.Idle ∨ e.state = EAudioEngineState.Stopped)) ∧
    (¬(e.state = EAudioEngineState.Idle ∨ e.state = EAudioEngineState.Stopped) →
      audioStateAfter e playMessage = e.state) ∧
    ((audioStateAfter e stopMessage = EAudioEngineState.Stopped ∧
        audioStateAfter e stopMessage ≠ e.state) ↔
      (e.state = EAudioEngineState.Running ∨ e.state = EAudioEngineState.Start)) ∧
    (¬(e.state = EAudioEngineState.Running ∨ e.state = EAudioEngineState.Start) →
      audioStateAfter e stopMessage = e.state) := by
  rcases e with ⟨st, d, c, sr, bf, tp, tf, rp, so, srun⟩
  cases st <;>
    simp [audioStateAfter, handleOneAudioMessage, playMessage, stopMessage]

theorem claim_C4_play_stop_transitions_witness :
    ((audioStateAfter audioEngineInit playMessage = EAudioEngineState.Start ∧
        audioStateAfter audioEngineInit playMessage ≠ audioEngineInit.state) ↔
      (audioEngineInit.state = EAudioEngineState.Idle ∨
        audioEngineInit.state = EAudioEngineState.Stopped)) ∧
    audioStateAfter audioEngineInit stopMessage = audioEngineInit.state :=
  ⟨(claim_C4_play_stop_transitions audioEngineInit).1,
   (claim_C4_play_stop_transitions audioEngineInit).2.2.2 (by decide)⟩

/-- An engine in the Running state with the constructor's device id 0 and
parameters 2 channels, 44100 Hz, 512 buffer frames. -/
def runningEngine : AudioEngineModel :=
  { audioEngineInit with
    state := EAudioEngineState.Running
    streamOpen := true
    streamRunning := true }

/-- Claim C1 counterexample: with the engine in the Running state, the message
handler applies a SetDevice command (device id 0 becomes 9) and a SetParams
command (channels 2 becomes 1, sample rate 44100 becomes 48000, buffer
frames 512 becomes 256); nothing is rejected. -/
theorem claim_C1_counterexample :
    runningEngine.state = EAudioEngineState.Running ∧
    handleOneAudioMessage runningEngine
        { command := EAudioEngineCommand.SetDevice
          payload := AudioPayload.deviceArgs { device_id := 9 } } =
      Except.ok { runningEngine with device_id := 9 } ∧
    runningEngine.device_id = 0 ∧
    handleOneAudioMessage runningEngine
        { command := EAudioEngineCommand.SetParams
          payload := AudioPayload.streamParamsArgs
            { channels := 1, sample_rate := 48000, buffer_frames := 256 } } =
      Except.ok { runningEngine with
        channels := 1, sample_rate := 48000, buffer_frames := 256 } ∧
    runningEngine.channels = 2 ∧ runningEngine.sample_rate = 44100 ∧
    runningEngine.buffer_frames = 512 :=
  ⟨rfl, rfl, rfl, rfl, rfl, rfl, rfl⟩

/-- Claim C1 amended: the message handler applies SetDevice and SetParams
unconditionally, in every state including Start and Running: SetDevice
overwrites the engine-held device id with the payload's and SetParams
overwrites the held channel count, sample rate and buffer-frame count; the
machine state itself is unchanged and no command is rejected. -/
theorem claim_C1_amended (e : AudioEngineModel) (dp : SetDevicePayload)
    (sp : SetStreamParamsPayload) :
    handleOneAudioMessage e
        { command := EAudioEngineCommand.SetDevice, payload := AudioPayload.deviceArgs dp } =
      Except.ok { e with device_id := dp.device_id } ∧
    handleOneAudioMessage e
        { command := EAudioEngineCommand.SetParams
          payload := AudioPayload.streamParamsArgs sp } =
      Except.ok { e with
        channels := sp.channels
        sample_rate := sp.sample_rate
        buffer_frames := sp.buffer_frames } :=
  ⟨rfl, rfl⟩

/-- The engine reached from the constructor state by draining a Play command
followed by a Stop command in one handler pass, before any tick of the state
machine: Stopped, with no stream ever opened. -/
def stoppedNoStreamEngine : AudioEngineModel :=
  { audioEngineInit with state := EAudioEngineState.Stopped }

/-- A transport outcome in which no RtAudio call throws. -/
def quietOutcome : AudioTransportOutcome :=
  { closeThrows := false, openThrows := false, negotiatedBufferFrames := 512
    startThrows := false }

/-- Claim C5 counterexample: the Stopped state is reachable with no stream
open (drain Play then Stop from the constructor state, before any tick), and
the next tick then leaves the engine entirely unchanged: it stays Stopped
instead of transitioning to Idle. -/
theorem claim_C5_counterexample :
    handleAudioMessages audioEngineInit [playMessage, stopMessage] =
      Except.ok stoppedNoStreamEngine ∧
    stoppedNoStreamEngine.state = EAudioEngineState.Stopped ∧
    stoppedNoStreamEngine.streamOpen = false ∧
    updateState stoppedNoStreamEngine quietOutcome = stoppedNoStreamEngine ∧
    (updateState stoppedNoStreamEngine quietOutcome).state ≠ EAudioEngineState.Idle :=
  ⟨rfl, rfl, rfl, rfl, by decide⟩

/-- Claim C5 amended: a tick taken in the Stopped state closes the stream,
resets the tracks-playing statistic to zero and transitions to Idle whenever
`p_rtaudio` exists and a stream is open; but when no stream is open (as when
Stopped was reached from Start before any stream was opened) the tick leaves
the engine unchanged, so Stopped persists. -/
theorem claim_C5_amended (e : AudioEngineModel) (o : AudioTransportOutcome)
    (hs : e.state = EAudioEngineState.Stopped) :
    (e.rtaudioPresent = true → e.streamOpen = true →
      updateState e o =
        { e with
          streamRunning := false
          streamOpen := false
          tracks_playing := 0
          state := EAudioEngineState.Idle }) ∧
    (e.rtaudioPresent = false ∨ e.streamOpen = false → updateState e o = e) := by
  constructor
  · intro hr hso
    simp [updateState, hs, updateStateStopped, hr, hso]
  · intro h
    rcases h with h | h <;> simp [updateState, hs, updateStateStopped, h]

theorem claim_C5_amended_witness :
    ({ stoppedNoStreamEngine with streamOpen := true } : AudioEngineModel).rtaudioPresent = true ∧
    updateState { stoppedNoStreamEngine with streamOpen := true } quietOutcome =
      { stoppedNoStreamEngine with
        streamOpen := false
        streamRunning := false
        tracks_playing := 0
        state := EAudioEngineState.Idle } ∧
    updateState stoppedNoStreamEngine quietOutcome = stoppedNoStreamEngine :=
  ⟨rfl,
   by
     have h := (claim_C5_amended { stoppedNoStreamEngine with streamOpen := true }
       quietOutcome rfl).1 rfl rfl
     simpa using h,
   (claim_C5_amended stoppedNoStreamEngine quietOutcome rfl).2 (Or.inr rfl)⟩

/-- Result of a completed `IEngine::start_thread` call: either the early
return taken when the engine is already running, or a started engine
together with the number of iterations the readiness poll loop executed
before exiting. -/
inductive StartThreadResult
  | noop
  | started (polls : Nat)
deriving Repr, DecidableEq

/-- The `while (!m_running.load(acquire))` readiness loop of
`IEngine::start_thread`, parametrised by the value each successive
`m_running.load` returns.  Poll counts stand in for elapsed time: `deadline`
is the poll index at which `steady_clock::now() - start_time` first exceeds
5 seconds.  On each iteration the loop re-checks the flag; if the flag is
still false past the deadline it throws the startup-timeout error. -/
def startPollLoop (reads : Nat → Bool) (deadline : Nat) (i : Nat) : Except String Nat :=
  if reads i then
    Except.ok i
  else if deadline ≤ i then
    Except.error "Timeout waiting for thread to start"
  else
    startPollLoop reads deadline (i + 1)
termination_by deadline - i
decreasing_by omega

/-- `IEngine::start_thread` (engine.h): returns at once when `m_running` is
already true; otherwise it stores `m_running = true`, spawns the worker
`jthread`, and enters the readiness poll loop, whose successive reads of
`m_running` are given by `reads`. -/
def startThread (m_running : Bool) (reads : Nat → Bool) (deadline : Nat) :
    Except String StartThreadResult :=
  if m_running then
    Except.ok StartThreadResult.noop
  else
    match startPollLoop reads deadline 0 with
    | Except.ok polls => Except.ok (StartThreadResult.started polls)
    | Except.error msg => Except.error msg

/-- What the source actually polls: the loop reads the very `m_running` flag
that `start_thread` itself stored `true` (release) immediately before
spawning the worker, and during startup the only other write to `m_running`
is the worker's own `store(true, release)` in `_run`; no write of `false`
can occur before `stop_thread`.  Every read of `m_running` inside the poll
loop therefore returns `true`, whether or not the worker ever runs. -/
def mRunningReadsAfterStore : Nat → Bool := fun _ => true

/-- Claim C6 divergence: because `start_thread` pre-stores the very flag the
readiness loop polls, the loop exits after zero iterations whenever the
first read returns true — which it always does — so the call never blocks
waiting for the worker and the 5-second timeout error can never be raised,
no matter whether the worker signals readiness; the already-running case is
a no-op as claimed. -/
theorem claim_C6_start_thread_no_handshake (reads : Nat → Bool) (deadline : Nat)
    (h : reads 0 = true) :
    startThread false reads deadline = Except.ok (StartThreadResult.started 0) ∧
    startThread true reads deadline = Except.ok StartThreadResult.noop := by
  constructor
  · rw [startThread]
    rw [if_neg (by simp)]
    rw [startPollLoop]
    rw [h]
    rfl
  · rfl

theorem claim_C6_start_thread_no_handshake_witness :
    mRunningReadsAfterStore 0 = true ∧
    startThread false mRunningReadsAfterStore 5000 =
      Except.ok (StartThreadResult.started 0) ∧
    startThread true mRunningReadsAfterStore 5000 = Except.ok StartThreadResult.noop :=
  ⟨rfl,
   (claim_C6_start_thread_no_handshake mRunningReadsAfterStore 5000 rfl).1,
   (claim_C6_start_thread_no_handshake mRunningReadsAfterStore 5000 rfl).2⟩

/-- The fixed `midi_message_type_names` table (miditypes.h), keyed by the
numeric value of `eMidiMessageType` (an `unsigned char`-backed enum, so the
key is just the status-derived byte value). -/
def midi_message_type_names : List (Nat × String) :=
  [(0x80, "Note Off"),
   (0x90, "Note On"),
   (0xA0, "Polyphonic Key Pressure"),
   (0xB0, "Control Change"),
   (0xC0, "Program Change"),
   (0xD0, "Channel Pressure"),
   (0xE0, "Pitch Bend Change"),
   (0xF0, "System Exclusive"),
   (0xF1, "MIDI Time Code Quarter Frame"),
   (0xF2, "Song Position Pointer"),
   (0xF3, "Song Select"),
   (0xF6, "Tune Request"),
   (0xF7, "End of SysEx"),
   (0xF8, "Timing Clock"),
   (0xFA, "Start"),
   (0xFB, "Continue"),
   (0xFC, "Stop"),
   (0xFE, "Active Sensing"),
   (0xFF, "System Reset")]

/-- `MidiMessage` (miditypes.h).  `type` holds the numeric value of the
`eMidiMessageType` enum, which is `unsigned char`-backed and therefore can
carry any byte value produced by the `static_cast` in the callback. -/
structure MidiMessage where
  deltatime : ℚ
  status : Nat
  type : Nat
  channel : Nat
  data1 : Nat
  data2 : Nat
  type_name : String
deriving Repr, DecidableEq

/-- The decode part of `midi_callback` (midiengine.cpp): a null message
pointer throws; `message->at(0)` on an empty vector throws
`std::out_of_range`; otherwise the status byte's high nibble becomes the
type, its low nibble the channel, bytes 1 and 2 (when present, else 0)
become data1/data2, and the type name is looked up in the fixed table, with
a fallback label for types not in the table.  The decoded message is then
handed to `receive_midi_message` for fan-out. -/
def midi_callback (deltatime : ℚ) (message : Option (List Nat)) :
    Except String MidiMessage :=
  match message with
  | none => Except.error "Received null MIDI message"
  | some bytes =>
    match bytes with
    | [] => Except.error "vector::at: index out of range"
    | b0 :: _rest =>
      let status := b0
      let type := status &&& 0xF0
      let channel := status &&& 0x0F
      let data1 := if 1 < bytes.length then bytes.getD 1 0 else 0
      let data2 := if 2 < bytes.length then bytes.getD 2 0 else 0
      let type_name :=
        match midi_message_type_names.find? (fun p => p.1 == type) with
        | some p => p.2
        | none => "Unknown MIDI Message"
      Except.ok
        { deltatime := deltatime
          status := status
          type := type
          channel := channel
          data1 := data1
          data2 := data2
          type_name := type_name }

/-- Claim C9: for every raw MIDI byte sequence with at least one byte, the
decoded message has type equal to the status byte's high nibble, channel
equal to its low nibble, data1 and data2 equal to the second and third bytes
(0 when absent), and a type name that is the fixed table's entry for that
type, or the fallback label when the type has no table entry. -/
theorem claim_C9_midi_decode (deltatime : ℚ) (b0 : Nat) (rest : List Nat) :
    ∃ m : MidiMessage,
      midi_callback deltatime (some (b0 :: rest)) = Except.ok m ∧
      m.status = b0 ∧
      m.type = b0 &&& 0xF0 ∧
      m.channel = b0 &&& 0x0F ∧
      m.data1 = ((b0 :: rest).getD 1 0) ∧
      m.data2 = ((b0 :: rest).getD 2 0) ∧
      (((m.type, m.type_name) ∈ midi_message_type_names) ∨
        (m.type_name = "Unknown MIDI Message" ∧
          ∀ p ∈ midi_message_type_names, p.1 ≠ m.type)) := by
  refine ⟨_, rfl, rfl, rfl, rfl, ?_, ?_, ?_⟩
  · show (if 1 < (b0 :: rest).length then (b0 :: rest).getD 1 0 else 0) =
      (b0 :: rest).getD 1 0
    rcases rest with _ | ⟨x, xs⟩ <;> simp [List.getD]
  · show (if 2 < (b0 :: rest).length then (b0 :: rest).getD 2 0 else 0) =
      (b0 :: rest).getD 2 0
    rcases rest with _ | ⟨x, xs⟩
    · simp [List.getD]
    · rcases xs with _ | ⟨y, ys⟩ <;> simp [List.getD]
  · cases hfind : midi_message_type_names.find? (fun p => p.1 == (b0 &&& 0xF0)) with
    | none =>
      right
      refine ⟨rfl, ?_⟩
      intro p hp
      have := List.find?_eq_none.mp hfind p hp
      simpa using this
    | some p =>
      left
      have hmem : p ∈ midi_message_type_names := List.mem_of_find?_eq_some hfind
      have hp : p.1 = b0 &&& 0xF0 := by
        have := List.find?_some hfind
        simpa using this
      show (b0 &&& 0xF0, p.2) ∈ midi_message_type_names
      rw [← hp]
      simpa using hmem

theorem claim_C9_midi_decode_witness :
    midi_callback 0 (some [0x93, 60, 100]) =
      Except.ok
        { deltatime := 0, status := 0x93, type := 0x90, channel := 3,
          data1 := 60, data2 := 100, type_name := "Note On" } ∧
    midi_callback 0 (some [0x45]) =
      Except.ok
        { deltatime := 0, status := 0x45, type := 0x40, channel := 5,
          data1 := 0, data2 := 0, type_name := "Unknown MIDI Message" } := by
  have h1 := claim_C9_midi_decode 0 0x93 [60, 100]
  have h2 := claim_C9_midi_decode 0 0x45 []
  exact ⟨by rfl, by rfl⟩

/-- `Devices::AudioDevice` (devicemanager.h): an immutable value snapshot. -/
structure AudioDevice where
  id : Nat
  name : String
  is_default_output : Bool
  is_default_input : Bool
  output_channels : Nat
  input_channels : Nat
deriving Repr, DecidableEq

/-- `Devices::MidiDevice` (devicemanager.h). -/
structure MidiDevice where
  id : Nat
  name : String
  is_default_output : Bool
  is_default_input : Bool
deriving Repr, DecidableEq

/-- `Files::WavFile`: the open libsndfile handle's observable state — the
file's channel count and sample rate from `m_sfinfo`, and the interleaved
samples not yet consumed by `read_frames`. -/
structure WavFile where
  channels : Nat
  sample_rate : Nat
  samples : List ℚ
deriving Repr, DecidableEq

/-- `Files::MidiFile` (only its name is relevant to the modelled paths). -/
structure MidiFile where
  filename : String
deriving Repr, DecidableEq

/-- `AudioIOVariant = std::variant<AudioDevice, WavFilePtr, nullopt_t>`
(track.h). -/
inductive AudioIOVariant
  | audioDevice (d : AudioDevice)
  | wavFile (f : WavFile)
  | nullopt
deriving Repr, DecidableEq

/-- `MidiIOVariant = std::variant<MidiDevice, MidiFilePtr, nullopt_t>`
(track.h). -/
inductive MidiIOVariant
  | midiDevice (d : MidiDevice)
  | midiFile (f : MidiFile)
  | nullopt
deriving Repr, DecidableEq

/-- `Tracks::Track` (track.h): the four optional I/O bindings and the
private mutex-guarded queue of inbound MIDI messages. -/
structure Track where
  audio_input : AudioIOVariant
  midi_input : MidiIOVariant
  audio_output : AudioIOVariant
  midi_output : MidiIOVariant
  message_queue : List MidiMessage
deriving Repr, DecidableEq

namespace Track

/-- The `Track` constructor: every binding starts as `std::nullopt`. -/
def new : Track :=
  { audio_input := AudioIOVariant.nullopt
    midi_input := MidiIOVariant.nullopt
    audio_output := AudioIOVariant.nullopt
    midi_output := MidiIOVariant.nullopt
    message_queue := [] }

/-- `Track::has_audio_input`: true when the variant does not hold
`nullopt_t`. -/
def has_audio_input (t : Track) : Bool :=
  match t.audio_input with
  | AudioIOVariant.nullopt => false
  | _ => true

/-- `Track::has_midi_input`. -/
def has_midi_input (t : Track) : Bool :=
  match t.midi_input with
  | MidiIOVariant.nullopt => false
  | _ => true

/-- `Track::has_audio_output`. -/
def has_audio_output (t : Track) : Bool :=
  match t.audio_output with
  | AudioIOVariant.nullopt => false
  | _ => true

/-- `Track::has_midi_output`. -/
def has_midi_output (t : Track) : Bool :=
  match t.midi_output with
  | MidiIOVariant.nullopt => false
  | _ => true

/-- `Track::add_audio_device_input` (track.cpp): rejects when an audio input
is already bound, rejects a device with no input channels, otherwise binds
the device.  The pair returns the call's outcome together with the track
after the call; a throw happens before any assignment, so the track is
returned unchanged on the error paths. -/
def add_audio_device_input (t : Track) (device : AudioDevice) :
    Except String Unit × Track :=
  if t.has_audio_input then
    (Except.error "This track already has an audio input.", t)
  else if device.input_channels < 1 then
    (Except.error ("Selected audio device " ++ device.name ++ " has no input channels."), t)
  else
    (Except.ok (), { t with audio_input := AudioIOVariant.audioDevice device })

/-- `Track::add_audio_file_input` (track.cpp): rejects when an audio input is
already bound, otherwise binds the WAV file. -/
def add_audio_file_input (t : Track) (wav_file : WavFile) :
    Except String Unit × Track :=
  if t.has_audio_input then
    (Except.error "This track already has an audio input.", t)
  else
    (Except.ok (), { t with audio_input := AudioIOVariant.wavFile wav_file })

/-- `Track::add_midi_device_input` (track.cpp): rejects when a MIDI input is
already bound, otherwise binds the device. -/
def add_midi_device_input (t : Track) (device : MidiDevice) :
    Except String Unit × Track :=
  if t.has_midi_input then
    (Except.error "This track already has a MIDI input.", t)
  else
    (Except.ok (), { t with midi_input := MidiIOVariant.midiDevice device })

end Track

/-- The state of the `MidiEngine` singleton relevant to the input port:
whether `p_midi_in` was created (the constructor throws otherwise, so a
constructed engine always has it) and whether an input port is open. -/
structure MidiEngineModel where
  midiInPresent : Bool
  portOpen : Bool
deriving Repr, DecidableEq

/-- `MidiEngine::close_input_port` (midiengine.cpp): throws if `p_midi_in`
is null; a no-op (logged) when no port is open; otherwise closes the port
(an `RtMidiError` from `closePort` would be caught and logged, leaving the
function to return normally). -/
def closeInputPort (me : MidiEngineModel) : Except String MidiEngineModel :=
  if !me.midiInPresent then
    Except.error "MIDI input is not initialized."
  else if !me.portOpen then
    Except.ok me
  else
    Except.ok { me with portOpen := false }

namespace Track

/-- `Track::remove_audio_input` (track.cpp): resets the variant to nullopt;
no precondition, never throws. -/
def remove_audio_input (t : Track) : Track :=
  { t with audio_input := AudioIOVariant.nullopt }

/-- `Track::remove_midi_input` (track.cpp): resets the variant to nullopt and
then unconditionally asks the MidiEngine singleton to close its input
port. -/
def remove_midi_input (t : Track) (me : MidiEngineModel) :
    Track × Except String MidiEngineModel :=
  ({ t with midi_input := MidiIOVariant.nullopt }, closeInputPort me)

/-- `Track::remove_audio_output` (track.cpp). -/
def remove_audio_output (t : Track) : Track :=
  { t with audio_output := AudioIOVariant.nullopt }

/-- `Track::remove_midi_output` (track.cpp). -/
def remove_midi_output (t : Track) : Track :=
  { t with midi_output := MidiIOVariant.nullopt }

end Track

/-- Claim C7: on a track that already has an audio input bound, a second
audio-input bind attempt (device or file) throws and leaves the original
binding intact — the held input is unchanged and has_audio_input stays
true; likewise a second MIDI-input bind attempt on a track that already has
a MIDI input. -/
theorem claim_C7_second_bind_rejected (t : Track) (d : AudioDevice) (f : WavFile)
    (md : MidiDevice) :
    (t.has_audio_input = true →
      (t.add_audio_device_input d).1 =
          Except.error "This track already has an audio input." ∧
        (t.add_audio_device_input d).2 = t ∧
        (t.add_audio_device_input d).2.audio_input = t.audio_input ∧
        (t.add_audio_device_input d).2.has_audio_input = true ∧
        (t.add_audio_file_input f).1 =
          Except.error "This track already has an audio input." ∧
        (t.add_audio_file_input f).2 = t ∧
        (t.add_audio_file_input f).2.audio_input = t.audio_input ∧
        (t.add_audio_file_input f).2.has_audio_input = true) ∧
    (t.has_midi_input = true →
      (t.add_midi_device_input md).1 =
          Except.error "This track already has a MIDI input." ∧
        (t.add_midi_device_input md).2 = t ∧
        (t.add_midi_device_input md).2.midi_input = t.midi_input ∧
        (t.add_midi_device_input md).2.has_midi_input = true) := by
  constructor
  · intro h
    simp [Track.add_audio_device_input, Track.add_audio_file_input, h]
  · intro h
    simp [Track.add_midi_device_input, h]

/-- A track holding a WAV-file audio input and a device MIDI input, used as
the concrete instance for the binding-exclusivity claims. -/
def boundTrack : Track :=
  { Track.new with
    audio_input := AudioIOVariant.wavFile { channels := 2, sample_rate := 44100, samples := [] }
    midi_input := MidiIOVariant.midiDevice
      { id := 1, name := "midi-in", is_default_output := false, is_default_input := true } }

/-- A concrete audio device with one input channel. -/
def someAudioDevice : AudioDevice :=
  { id := 3, name := "mic", is_default_output := false, is_default_input := true,
    output_channels := 0, input_channels := 1 }

/-- A concrete MIDI device. -/
def someMidiDevice : MidiDevice :=
  { id := 4, name := "keys", is_default_output := false, is_default_input := true }

theorem claim_C7_second_bind_rejected_witness :
    boundTrack.has_audio_input = true ∧
    (boundTrack.add_audio_device_input someAudioDevice).1 =
      Except.error "This track already has an audio input." ∧
    (boundTrack.add_audio_device_input someAudioDevice).2 = boundTrack ∧
    boundTrack.has_midi_input = true ∧
    (boundTrack.add_midi_device_input someMidiDevice).1 =
      Except.error "This track already has a MIDI input." ∧
    (boundTrack.add_midi_device_input someMidiDevice).2 = boundTrack := by
  have h := claim_C7_second_bind_rejected boundTrack someAudioDevice
    { channels := 1, sample_rate := 8000, samples := [] } someMidiDevice
  have h1 := h.1 rfl
  have h2 := h.2 rfl
  exact ⟨rfl, h1.1, h1.2.1, rfl, h2.1, h2.2.1⟩

/-- Claim C10: every unbind operation succeeds without raising an error even
when the corresponding slot is not bound, and afterwards the corresponding
has_* predicate is false; remove_midi_input additionally always asks the
MIDI Engine to close its input port (on a constructed engine, whose
`p_midi_in` exists, this succeeds and leaves the port closed), even when the
track had no MIDI input bound.  The three audio/output unbinds are total
functions of the track alone, so they cannot raise at all. -/
theorem claim_C10_unbind_total (t : Track) (me : MidiEngineModel)
    (h : me.midiInPresent = true) :
    (t.remove_audio_input).has_audio_input = false ∧
    (t.remove_audio_output).has_audio_output = false ∧
    (t.remove_midi_output).has_midi_output = false ∧
    (t.remove_midi_input me).1.has_midi_input = false ∧
    (∃ me2 : MidiEngineModel,
      (t.remove_midi_input me).2 = Except.ok me2 ∧ me2.portOpen = false) := by
  refine ⟨rfl, rfl, rfl, rfl, ?_⟩
  by_cases hp : me.portOpen
  · exact ⟨{ me with portOpen := false },
      by simp [Track.remove_midi_input, closeInputPort, h, hp], rfl⟩
  · refine ⟨me, by simp [Track.remove_midi_input, closeInputPort, h, hp], ?_⟩
    simpa using hp

theorem claim_C10_unbind_total_witness :
    (Track.new.remove_audio_input).has_audio_input = false ∧
    (Track.new.remove_midi_input { midiInPresent := true, portOpen := false }).1.has_midi_input
      = false ∧
    (∃ me2 : MidiEngineModel,
      (Track.new.remove_midi_input { midiInPresent := true, portOpen := false }).2 =
        Except.ok me2 ∧ me2.portOpen = false) := by
  have h := claim_C10_unbind_total Track.new { midiInPresent := true, portOpen := false } rfl
  exact ⟨h.1, h.2.2.2.1, h.2.2.2.2⟩

/-- A single store through a `float*`: pointer-indexed buffers are modelled
as functions from sample index to sample value. -/
def writeAt (buf : Nat → ℚ) (idx : Nat) (v : ℚ) : Nat → ℚ :=
  fun j => if j = idx then v else buf j

/-- A loop writing `0.0f` to every index from `lo` (inclusive) to `hi`
(exclusive): both the `std::fill` silence path and the short-read
silence-padding loop of `Track::get_next_audio_frame` have this shape. -/
def silenceRange (buf : Nat → ℚ) (lo hi : Nat) : Nat → ℚ :=
  if lo < hi then silenceRange (writeAt buf lo 0) (lo + 1) hi else buf
termination_by hi - lo
decreasing_by omega

/-- The inner channel loop of the copy phase of `get_next_audio_frame`:
for `ch` from its start value to `channels`, writes
`output_buffer[frame * channels + ch] = file_buffer[frame * file_channels + ch]`
when `ch < file_channels` and silence otherwise. -/
def copyRow (buf : Nat → ℚ) (fb : List ℚ) (frame channels file_channels ch : Nat) :
    Nat → ℚ :=
  if ch < channels then
    let v := if ch < file_channels then fb.getD (frame * file_channels + ch) 0 else 0
    copyRow (writeAt buf (frame * channels + ch) v) fb frame channels file_channels (ch + 1)
  else
    buf
termination_by channels - ch
decreasing_by omega

/-- The outer frame loop of the copy phase: for `frame` from its start value
to `read_frames`, runs the channel loop. -/
def copyFrames (buf : Nat → ℚ) (fb : List ℚ) (frame read_frames channels file_channels : Nat) :
    Nat → ℚ :=
  if frame < read_frames then
    copyFrames (copyRow buf fb frame channels file_channels 0) fb (frame + 1)
      read_frames channels file_channels
  else
    buf
termination_by read_frames - frame
decreasing_by omega

namespace WavFile

/-- `WavFile::read_frames`, i.e. `sf_readf_float`: reads up to the requested
number of whole frames into the start of the buffer, returns how many frames
were actually read (fewer than requested exactly when the file runs out),
and advances the file position. -/
def read_frames (wf : WavFile) (buffer : List ℚ) (frames_to_read : Nat) :
    Nat × List ℚ × WavFile :=
  let avail := wf.samples.length / wf.channels
  let n := min frames_to_read avail
  (n,
   wf.samples.take (n * wf.channels) ++ buffer.drop (n * wf.channels),
   { wf with samples := wf.samples.drop (n * wf.channels) })

end WavFile

namespace Track

/-- `Track::get_next_audio_frame` (track.cpp).  The `float*` output buffer is
an `Option` so the `nullptr` guard is expressible; the AudioEngine's message
queue is threaded through because the short-read path calls `Track::stop`,
which enqueues a Stop command via `AudioEngine::instance().stop()`.  Guard
order follows the source: null buffer, zero frames, zero channels, zero
sample rate each log and return with nothing written; with no audio input
the whole requested range is filled with silence; with a WAV-file input the
requested frames are read from the file, a short read pads the tail with
silence and enqueues Stop, and the copy loop remaps the file channels onto
the requested channels; any other input kind leaves the buffer untouched. -/
def get_next_audio_frame (t : Track) (output_buffer : Option (Nat → ℚ))
    (frames channels sample_rate : Nat) (engineQueue : MessageQueue AudioMessage) :
    Option (Nat → ℚ) × Track × MessageQueue AudioMessage :=
  match output_buffer with
  | none => (none, t, engineQueue)
  | some buf =>
    if frames = 0 then (some buf, t, engineQueue)
    else if channels = 0 then (some buf, t, engineQueue)
    else if sample_rate = 0 then (some buf, t, engineQueue)
    else if t.has_audio_input = false then
      (some (silenceRange buf 0 (frames * channels)), t, engineQueue)
    else
      match t.audio_input with
      | AudioIOVariant.wavFile wf =>
        let file_channels := wf.channels
        let samples_to_read := frames * file_channels
        let r := wf.read_frames (List.replicate samples_to_read 0) frames
        let buf1 :=
          if r.1 ≠ frames then silenceRange buf (r.1 * channels) (frames * channels) else buf
        let queue1 := if r.1 ≠ frames then engineQueue.push stopMessage else engineQueue
        let buf2 := copyFrames buf1 r.2.1 0 r.1 channels file_channels
        (some buf2, { t with audio_input := AudioIOVariant.wavFile r.2.2 }, queue1)
      | _ => (some buf, t, engineQueue)

end Track

theorem silenceRange_bounded (n : Nat) :
    ∀ (lo hi : Nat), hi - lo ≤ n → ∀ (buf : Nat → ℚ) (j : Nat),
      silenceRange buf lo hi j = if lo ≤ j ∧ j < hi then 0 else buf j := by
  induction n with
  | zero =>
    intro lo hi h buf j
    rw [silenceRange, if_neg (by omega)]
    rw [if_neg (by omega)]
  | succ n ih =>
    intro lo hi h buf j
    by_cases hlt : lo < hi
    · rw [silenceRange, if_pos hlt, ih (lo + 1) hi (by omega)]
      by_cases hj : j = lo
      · rw [if_neg (by omega), if_pos (by omega)]
        unfold writeAt
        rw [if_pos hj]
      · have hw : writeAt buf lo 0 j = buf j := by
          unfold writeAt
          rw [if_neg hj]
        rw [hw]
        by_cases hcond : lo ≤ j ∧ j < hi
        · rw [if_pos (by omega), if_pos hcond]
        · rw [if_neg (by omega), if_neg hcond]
    · rw [silenceRange, if_neg hlt, if_neg (by omega)]

theorem silenceRange_apply (buf : Nat → ℚ) (lo hi j : Nat) :
    silenceRange buf lo hi j = if lo ≤ j ∧ j < hi then 0 else buf j :=
  silenceRange_bounded (hi - lo) lo hi (Nat.le_refl _) buf j

theorem copyRow_preserve (fb : List ℚ) (frame channels file_channels j : Nat)
    (hj : frame * channels + channels ≤ j) :
    ∀ (n ch : Nat), channels - ch ≤ n → ∀ (buf : Nat → ℚ),
      copyRow buf fb frame channels file_channels ch j = buf j := by
  intro n
  induction n with
  | zero =>
    intro ch h buf
    rw [copyRow, if_neg (by omega)]
  | succ n ih =>
    intro ch h buf
    by_cases hlt : ch < channels
    · rw [copyRow, if_pos hlt]
      rw [ih (ch + 1) (by omega)]
      unfold writeAt
      rw [if_neg (by omega)]
    · rw [copyRow, if_neg hlt]

theorem copyFrames_preserve (fb : List ℚ) (read_frames channels file_channels j : Nat)
    (hj : read_frames * channels ≤ j) :
    ∀ (n frame : Nat), read_frames - frame ≤ n → ∀ (buf : Nat → ℚ),
      copyFrames buf fb frame read_frames channels file_channels j = buf j := by
  intro n
  induction n with
  | zero =>
    intro frame h buf
    rw [copyFrames, if_neg (by omega)]
  | succ n ih =>
    intro frame h buf
    by_cases hlt : frame < read_frames
    · rw [copyFrames, if_pos hlt]
      rw [ih (frame + 1) (by omega)]
      apply copyRow_preserve
      · have h1 : frame * channels + channels = (frame + 1) * channels := by ring
        have h2 : (frame + 1) * channels ≤ read_frames * channels :=
          Nat.mul_le_mul_right channels (by omega)
        omega
      · exact Nat.le_refl _
    · rw [copyFrames, if_neg hlt]

/-- Claim C8: on a track whose audio input is a WAV file, with a non-null
buffer and non-zero frames, channels and sample rate, a file read that
returns fewer frames than requested makes every output sample from index
read_frames * channels up to frames * channels equal to 0.0 and enqueues a
Stop command on the Audio Engine's message queue. -/
theorem claim_C8_short_read_silence_and_stop (t : Track) (wf : WavFile) (buf : Nat → ℚ)
    (frames channels sample_rate : Nat) (engineQueue : MessageQueue AudioMessage)
    (hin : t.audio_input = AudioIOVariant.wavFile wf)
    (hf : frames ≠ 0) (hc : channels ≠ 0) (hs : sample_rate ≠ 0)
    (hshort : wf.samples.length / wf.channels < frames) :
    ∃ (buf2 : Nat → ℚ) (t2 : Track),
      t.get_next_audio_frame (some buf) frames channels sample_rate engineQueue =
        (some buf2, t2, engineQueue.push stopMessage) ∧
      ∀ i : Nat, wf.samples.length / wf.channels * channels ≤ i →
        i < frames * channels → buf2 i = 0 := by
  have hhas : t.has_audio_input = true := by
    unfold Track.has_audio_input
    rw [hin]
  have hr1 : (wf.read_frames (List.replicate (frames * wf.channels) 0) frames).1 =
      wf.samples.length / wf.channels := by
    unfold WavFile.read_frames
    exact Nat.min_eq_right (Nat.le_of_lt hshort)
  have hne : (wf.read_frames (List.replicate (frames * wf.channels) 0) frames).1 ≠ frames := by
    rw [hr1]
    omega
  unfold Track.get_next_audio_frame
  dsimp only
  rw [hin]
  rw [if_neg hf, if_neg hc, if_neg hs, if_neg (by rw [hhas]; simp)]
  dsimp only
  rw [if_pos hne, if_pos hne]
  refine ⟨_, _, rfl, ?_⟩
  intro i hlo hhi
  rw [copyFrames_preserve _ _ _ _ _ (by rw [hr1]; exact hlo)
    ((wf.read_frames (List.replicate (frames * wf.channels) 0) frames).1) 0
    (by omega) _]
  rw [silenceRange_apply]
  rw [if_pos (by rw [hr1]; exact ⟨hlo, hhi⟩)]

/-- A WAV file with 2 channels holding only one frame of samples. -/
def shortWav : WavFile :=
  { channels := 2, sample_rate := 44100, samples := [1, 2] }

/-- A track whose audio input is `shortWav`. -/
def shortTrack : Track :=
  { Track.new with audio_input := AudioIOVariant.wavFile shortWav }

theorem claim_C8_short_read_silence_and_stop_witness :
    ∃ (buf2 : Nat → ℚ) (t2 : Track),
      shortTrack.get_next_audio_frame (some (fun _ => 9)) 2 2 44100
          { items := [], stopped := false } =
        (some buf2, t2,
          MessageQueue.push { items := [], stopped := false } stopMessage) ∧
      ∀ i : Nat, shortWav.samples.length / shortWav.channels * 2 ≤ i → i < 2 * 2 →
        buf2 i = 0 :=
  claim_C8_short_read_silence_and_stop shortTrack shortWav (fun _ => 9) 2 2 44100
    { items := [], stopped := false } rfl (by decide) (by decide) (by decide) (by decide)
